import Mathlib

/-!
Verification of the audio playback controller of the music web app
(src/src/App.js, component AudioPlayerProvider).

The controller state (React useState hooks plus the refs audioRef,
intervalRef) is embedded as an explicit record `PState`; the operations
playSong, pauseSong, resumeSong, playNext, playPrevious, seekTo, toggleMute,
toggleShuffle, toggleRepeat, addToQueue and clearQueue are embedded as pure
state transformers.  External nondeterminism (the iTunes search result, the
media element load/play outcomes, Math.random) is passed in as an `Env`
record, so one run of an operation against one `Env` models one concrete
execution of the JavaScript.

Times and durations are rationals (JS numbers on the non-NaN paths used
here); timers are modelled by a list of live timer ids plus the
`intervalRef` cell, with `setInterval` returning a fresh id.
-/

/-- A track descriptor as used by the player (fields `name`, `artist`,
`duration_ms`, `preview_url` of the song objects in App.js).  `preview_url`
is `none` when the field is absent/null; `some ""` is also falsy in JS. -/
structure Song where
  id : Nat
  name : String
  artist : String
  duration_ms : Nat
  preview_url : Option String
deriving Repr, DecidableEq

/-- Outcome of the iTunes search await (`axios.get` at App.js:363):
`ok found` is a response, where `found` is the first result's `previewUrl`
when a result with one exists (`none` both for an empty result list and for
a result lacking `previewUrl` — both leave `audioUrl` null); `err` is a
thrown request error (the `itunesError` catch at App.js:389). -/
inductive SearchOutcome where
  | ok (found : Option String)
  | err
deriving Repr, DecidableEq

/-- One concrete resolution of all the asynchronous/nondeterministic events
a single operation run can hit. -/
structure Env where
  /-- result of the iTunes search await -/
  search : SearchOutcome
  /-- the load wait (App.js:423): `canplay` fired (true) or `error` fired (false) -/
  loadOk : Bool
  /-- the first `audioRef.current.play()` await (App.js:444) resolved -/
  playOk : Bool
  /-- the retried `play()` under relaxed crossOrigin (App.js:467) resolved -/
  retryOk : Bool
  /-- the `play()` await inside resumeSong (App.js:510) resolved -/
  resumeOk : Bool
  /-- `audioRef.current.duration` read at App.js:446; 0 models the falsy
  values (0/NaN) that make `||` fall through to `song.duration_ms / 1000` -/
  audioDuration : ℚ
  /-- `error.message` of the error reaching the outer catch (App.js:490);
  the JS `|| 'Unknown error'` default is folded into this field -/
  errMsg : String
  /-- seed for `Math.floor(Math.random() * queue.length)`: the code can
  produce exactly the values in `[0, length)`, realised as `rand % length` -/
  rand : Nat
deriving Repr, DecidableEq

/-- The published playback state (the useState hooks of AudioPlayerProvider,
App.js:67-77) together with the transport and timer refs. -/
structure PState where
  currentSong : Option Song
  isPlaying : Bool
  currentTime : ℚ
  duration : ℚ
  volume : ℚ
  isMuted : Bool
  isShuffled : Bool
  isRepeat : Bool
  queue : List Song
  currentIndex : Nat
  isPlayerMinimized : Bool
  /-- `audioRef.current.src`: `none` before any source was ever assigned -/
  audioSrc : Option String
  /-- `audioRef.current.currentTime` -/
  audioPos : ℚ
  /-- `audioRef.current.paused` -/
  audioPaused : Bool
  /-- `audioRef.current.crossOrigin` (`some "anonymous"` or `none`) -/
  crossOrigin : Option String
  /-- ids of the interval timers currently live (installed, not cleared) -/
  timers : List Nat
  /-- the `intervalRef.current` cell: last id stored by `setInterval`
  (pauseSong clears the timer but does not null the cell, App.js:500) -/
  intervalRef : Option Nat
  /-- fresh-id supply for `setInterval` -/
  nextTimerId : Nat
deriving Repr, DecidableEq

/-- Initial state of the provider (App.js:67-88). -/
def initialState : PState where
  currentSong := none
  isPlaying := false
  currentTime := 0
  duration := 0
  volume := 7/10
  isMuted := false
  isShuffled := false
  isRepeat := false
  queue := []
  currentIndex := 0
  isPlayerMinimized := false
  audioSrc := none
  audioPos := 0
  audioPaused := true
  crossOrigin := some "anonymous"
  timers := []
  intervalRef := none
  nextTimerId := 0

/-- Result of running playSong (or next/previous, which call it): the new
state plus the externally observable effects the claims talk about. -/
structure PResult where
  st : PState
  /-- messages passed to `toast.error` during the run, in order -/
  errToasts : List String
  /-- a network request to the iTunes search API was issued -/
  searched : Bool
  /-- `audioRef.current.src` was assigned (a source was bound) -/
  bound : Bool
  /-- number of `audioRef.current.play()` calls made by this run -/
  playAttempts : Nat
  /-- the relaxed-crossOrigin retry path (App.js:459-485) was entered -/
  relaxedRetry : Bool
deriving Repr, DecidableEq

/-- A run that touches nothing and observes nothing. -/
def noEffect (st : PState) : PResult :=
  ⟨st, [], false, false, 0, false⟩

/-- JS truthiness test used on `song.preview_url` (`if (!audioUrl)`,
App.js:353): absent/null and the empty string are falsy. -/
def jsFalsy : Option String → Bool
  | none => true
  | some s => s = ""

/-- `const API = BACKEND_URL + "/api"` (App.js:41-42); the concrete env
value of BACKEND_URL is irrelevant to every claim. -/
def apiBase : String := "BACKEND_URL/api"

/-- The proxied URL built at App.js:374.  The `encodeURIComponent`
percent-encoding of the inner URL is abstracted away (no claim depends on
the encoding, only on which URL is proxied). -/
def proxyUrl (u : String) : String :=
  apiBase ++ "/audio/proxy?url=" ++ u

/-- toast.error message at App.js:383. -/
def noPreviewMsg (song : Song) : String :=
  "No preview available for \"" ++ song.name ++ "\". Try opening in Spotify to listen."

/-- toast.error message at App.js:391. -/
def searchErrMsg (song : Song) : String :=
  "Preview not available for \"" ++ song.name ++ "\"."

/-- toast.error message of the onerror handler installed at App.js:411. -/
def loadErrorMsg : String :=
  "Failed to load audio preview. The track may not be available for streaming."

/-- toast.error message of the outer catch at App.js:490. -/
def failedToPlayMsg (song : Song) (e : Env) : String :=
  "Failed to play \"" ++ song.name ++ "\". " ++ e.errMsg

/-- `if (intervalRef.current) clearInterval(intervalRef.current)`
(App.js:449, 472, 500, 514, 527, 547): kills the referenced timer; the
`intervalRef` cell itself is left as is. -/
def clearIntervalRef (st : PState) : PState :=
  match st.intervalRef with
  | some i => { st with timers := st.timers.erase i }
  | none => st

/-- `intervalRef.current = setInterval(...)`: a fresh timer starts running
and its id is stored in the cell. -/
def installInterval (st : PState) : PState :=
  { st with timers := st.timers ++ [st.nextTimerId],
            intervalRef := some st.nextTimerId,
            nextTimerId := st.nextTimerId + 1 }

/-- The clear-then-install pair that precedes every progress-tracking timer
installation in the source (App.js:449-452, 472-475, 514-517, 527-530,
547-550). -/
def restartInterval (st : PState) : PState :=
  installInterval (clearIntervalRef st)

/-- Success epilogue of a play attempt (App.js:444-456 and 467-479):
`setIsPlaying(true)`, `setDuration(audioRef.current.duration ||
song.duration_ms / 1000)`, then restart the progress interval. -/
def startPlaying (song : Song) (e : Env) (st : PState) : PState :=
  let st := { st with isPlaying := true, audioPaused := false,
                      duration := if e.audioDuration = 0
                                  then (song.duration_ms : ℚ) / 1000
                                  else e.audioDuration }
  restartInterval st

/-- The transport phase of playSong (App.js:399-492), entered once an
`audioUrl` has been resolved: tear down current playback, bind the source
with `crossOrigin = "anonymous"`, await the load, then `play()` with a
single relaxed-crossOrigin retry; load failures and a failed retry reach
the outer catch (App.js:488-492). -/
def bindAndStart (song : Song) (audioUrl : String) (e : Env) (st : PState) : PResult :=
  let st := { st with audioPaused := true, audioPos := 0,
                      crossOrigin := some "anonymous",
                      audioSrc := some audioUrl }
  if e.loadOk then
    if e.playOk then
      ⟨startPlaying song e st, [], false, true, 1, false⟩
    else
      let st := { st with crossOrigin := none, audioSrc := some audioUrl }
      if e.retryOk then
        ⟨startPlaying song e st, [], false, true, 2, true⟩
      else
        ⟨{ st with isPlaying := false }, [failedToPlayMsg song e], false, true, 2, true⟩
  else
    ⟨{ st with isPlaying := false }, [loadErrorMsg, failedToPlayMsg song e],
      false, true, 0, false⟩

/-- The synchronous head of playSong (App.js:345-348), run before the first
await: replace current song, queue and index, clear the playing flag. -/
def playSyncPart (song : Song) (songQueue : List Song) (index : Nat) (st : PState) : PState :=
  { st with currentSong := some song,
            queue := if songQueue.length > 0 then songQueue else [song],
            currentIndex := index,
            isPlaying := false }

/-- The continuation of playSong after the iTunes search await resolves
(App.js:364-397 and onward): on a found previewUrl, proceed with the
proxied URL; on no candidate or a search error, report and stop. -/
def playSearchContinuation (song : Song) (e : Env) (st : PState) : PResult :=
  match e.search with
  | .ok (some u) =>
      let r := bindAndStart song (proxyUrl u) e st
      { r with searched := true }
  | .ok none =>
      ⟨{ st with isPlaying := false }, [noPreviewMsg song], true, false, 0, false⟩
  | .err =>
      ⟨{ st with isPlaying := false }, [searchErrMsg song], true, false, 0, false⟩

/-- playSong (App.js:341-493), one full sequential run against `e`.
`none` for the song models the JS call with a null/undefined argument. -/
def playSong (song? : Option Song) (songQueue : List Song) (index : Nat)
    (e : Env) (st : PState) : PResult :=
  match song? with
  | none => noEffect st
  | some song =>
      let st1 := playSyncPart song songQueue index st
      if jsFalsy song.preview_url then
        playSearchContinuation song e st1
      else
        bindAndStart song (song.preview_url.getD "") e st1

/-- pauseSong (App.js:495-503): pause the transport, clear the playing
flag, kill the progress timer. -/
def pauseSong (st : PState) : PState :=
  let st := { st with audioPaused := true, isPlaying := false }
  clearIntervalRef st

/-- resumeSong (App.js:505-564): with a current song, resume the transport
when a source is bound (falling back to the simulated cursor when `play()`
rejects), else simulate; every branch restarts the progress timer.  The
tick bodies of the timers are not modelled — the claims concern timer
lifecycle only. -/
def resumeSong (e : Env) (st : PState) : PState :=
  match st.currentSong with
  | none => st
  | some _ =>
      match st.audioSrc with
      | some _ =>
          if e.resumeOk then
            restartInterval { st with audioPaused := false, isPlaying := true }
          else
            restartInterval { st with isPlaying := true }
      | none =>
          restartInterval { st with isPlaying := true }

/-- The `nextIndex` computed at App.js:577-582. -/
def nextIndexOf (e : Env) (st : PState) : Nat :=
  if st.isShuffled then e.rand % st.queue.length
  else (st.currentIndex + 1) % st.queue.length

/-- The `prevIndex` computed at App.js:593-598.  `currentIndex - 1 < 0` on
a nonnegative JS index is exactly `currentIndex = 0`. -/
def prevIndexOf (e : Env) (st : PState) : Nat :=
  if st.isShuffled then e.rand % st.queue.length
  else if st.currentIndex = 0 then st.queue.length - 1
  else st.currentIndex - 1

/-- playNext (App.js:574-588); the `if (nextSong)` guard is the `match`. -/
def playNext (e : Env) (st : PState) : PResult :=
  if st.queue.length = 0 then noEffect st
  else
    match st.queue[nextIndexOf e st]? with
    | some s => playSong (some s) st.queue (nextIndexOf e st) e st
    | none => noEffect st

/-- playPrevious (App.js:590-604); the `if (prevSong)` guard is the
`match`. -/
def playPrevious (e : Env) (st : PState) : PResult :=
  if st.queue.length = 0 then noEffect st
  else
    match st.queue[prevIndexOf e st]? with
    | some s => playSong (some s) st.queue (prevIndexOf e st) e st
    | none => noEffect st

/-- seekTo (App.js:606-611): set the transport position (the audio element
always exists after mount) and publish the elapsed time unconditionally. -/
def seekTo (time : ℚ) (st : PState) : PState :=
  { st with audioPos := time, currentTime := time }

/-- toggleMute (App.js:613-615). -/
def toggleMute (st : PState) : PState :=
  { st with isMuted := !st.isMuted }

/-- toggleShuffle (App.js:617-620). -/
def toggleShuffle (st : PState) : PState :=
  { st with isShuffled := !st.isShuffled }

/-- toggleRepeat (App.js:622-625). -/
def toggleRepeat (st : PState) : PState :=
  { st with isRepeat := !st.isRepeat }

/-- addToQueue (App.js:627-631); a single song is wrapped into a
singleton list by the caller-side `Array.isArray` normalisation. -/
def addToQueue (songs : List Song) (st : PState) : PState :=
  { st with queue := st.queue ++ songs }

/-- clearQueue (App.js:633-637). -/
def clearQueue (st : PState) : PState :=
  { st with queue := [], currentIndex := 0 }

/-- At most one progress timer is live, and when one is live it is the one
`intervalRef` points at. -/
def TimerInv (st : PState) : Prop :=
  st.timers = [] ∨ ∃ i, st.intervalRef = some i ∧ st.timers = [i]

instance (st : PState) : Decidable (TimerInv st) := by
  unfold TimerInv
  cases h : st.intervalRef with
  | none =>
      refine decidable_of_iff (st.timers = []) ?_
      simp [h]
  | some i =>
      refine decidable_of_iff (st.timers = [] ∨ st.timers = [i]) ?_
      constructor
      · rintro (h1 | h1)
        · exact Or.inl h1
        · exact Or.inr ⟨i, rfl, h1⟩
      · rintro (h1 | ⟨j, hj, h1⟩)
        · exact Or.inl h1
        · cases hj
          exact Or.inr h1

/-- When a current track is set, the current index addresses a Queue entry
(the singleton queue installed by a default-argument play has index 0, so
it is covered). -/
def indexInv (st : PState) : Prop :=
  st.currentSong.isSome → st.currentIndex < st.queue.length

instance (st : PState) : Decidable (indexInv st) := by
  unfold indexInv
  infer_instance

/-! ### Field-preservation lemmas for the timer helpers -/

@[simp] lemma clearIntervalRef_currentSong (st : PState) :
    (clearIntervalRef st).currentSong = st.currentSong := by
  unfold clearIntervalRef; cases h : st.intervalRef <;> rfl

@[simp] lemma clearIntervalRef_queue (st : PState) :
    (clearIntervalRef st).queue = st.queue := by
  unfold clearIntervalRef; cases h : st.intervalRef <;> rfl

@[simp] lemma clearIntervalRef_currentIndex (st : PState) :
    (clearIntervalRef st).currentIndex = st.currentIndex := by
  unfold clearIntervalRef; cases h : st.intervalRef <;> rfl

@[simp] lemma clearIntervalRef_audioSrc (st : PState) :
    (clearIntervalRef st).audioSrc = st.audioSrc := by
  unfold clearIntervalRef; cases h : st.intervalRef <;> rfl

@[simp] lemma clearIntervalRef_isPlaying (st : PState) :
    (clearIntervalRef st).isPlaying = st.isPlaying := by
  unfold clearIntervalRef; cases h : st.intervalRef <;> rfl

@[simp] lemma clearIntervalRef_crossOrigin (st : PState) :
    (clearIntervalRef st).crossOrigin = st.crossOrigin := by
  unfold clearIntervalRef; cases h : st.intervalRef <;> rfl

@[simp] lemma installInterval_currentSong (st : PState) :
    (installInterval st).currentSong = st.currentSong := rfl

@[simp] lemma installInterval_queue (st : PState) :
    (installInterval st).queue = st.queue := rfl

@[simp] lemma installInterval_currentIndex (st : PState) :
    (installInterval st).currentIndex = st.currentIndex := rfl

@[simp] lemma installInterval_audioSrc (st : PState) :
    (installInterval st).audioSrc = st.audioSrc := rfl

@[simp] lemma installInterval_isPlaying (st : PState) :
    (installInterval st).isPlaying = st.isPlaying := rfl

@[simp] lemma installInterval_crossOrigin (st : PState) :
    (installInterval st).crossOrigin = st.crossOrigin := rfl

@[simp] lemma restartInterval_currentSong (st : PState) :
    (restartInterval st).currentSong = st.currentSong := by
  simp [restartInterval]

@[simp] lemma restartInterval_queue (st : PState) :
    (restartInterval st).queue = st.queue := by
  simp [restartInterval]

@[simp] lemma restartInterval_currentIndex (st : PState) :
    (restartInterval st).currentIndex = st.currentIndex := by
  simp [restartInterval]

@[simp] lemma restartInterval_audioSrc (st : PState) :
    (restartInterval st).audioSrc = st.audioSrc := by
  simp [restartInterval]

@[simp] lemma restartInterval_isPlaying (st : PState) :
    (restartInterval st).isPlaying = st.isPlaying := by
  simp [restartInterval]

@[simp] lemma restartInterval_crossOrigin (st : PState) :
    (restartInterval st).crossOrigin = st.crossOrigin := by
  simp [restartInterval]

@[simp] lemma startPlaying_currentSong (song : Song) (e : Env) (st : PState) :
    (startPlaying song e st).currentSong = st.currentSong := by
  simp [startPlaying]

@[simp] lemma startPlaying_queue (song : Song) (e : Env) (st : PState) :
    (startPlaying song e st).queue = st.queue := by
  simp [startPlaying]

@[simp] lemma startPlaying_currentIndex (song : Song) (e : Env) (st : PState) :
    (startPlaying song e st).currentIndex = st.currentIndex := by
  simp [startPlaying]

@[simp] lemma startPlaying_audioSrc (song : Song) (e : Env) (st : PState) :
    (startPlaying song e st).audioSrc = st.audioSrc := by
  simp [startPlaying]

@[simp] lemma startPlaying_isPlaying (song : Song) (e : Env) (st : PState) :
    (startPlaying song e st).isPlaying = true := by
  simp [startPlaying]

@[simp] lemma startPlaying_crossOrigin (song : Song) (e : Env) (st : PState) :
    (startPlaying song e st).crossOrigin = st.crossOrigin := by
  simp [startPlaying]

/-! ### Behaviour of the transport phase, uniformly over the environment -/

lemma bindAndStart_proj (song : Song) (url : String) (e : Env) (st : PState) :
    (bindAndStart song url e st).st.currentSong = st.currentSong ∧
    (bindAndStart song url e st).st.queue = st.queue ∧
    (bindAndStart song url e st).st.currentIndex = st.currentIndex ∧
    (bindAndStart song url e st).st.audioSrc = some url ∧
    (bindAndStart song url e st).bound = true ∧
    (bindAndStart song url e st).searched = false := by
  unfold bindAndStart
  cases hL : e.loadOk <;> cases hP : e.playOk <;> cases hR : e.retryOk <;> simp

lemma playSong_fields (song : Song) (q : List Song) (i : Nat) (e : Env) (st : PState) :
    (playSong (some song) q i e st).st.currentSong = some song ∧
    (playSong (some song) q i e st).st.queue = (if q.length > 0 then q else [song]) ∧
    (playSong (some song) q i e st).st.currentIndex = i := by
  unfold playSong playSearchContinuation
  by_cases hf : jsFalsy song.preview_url
  · simp only [hf, if_true]
    cases hs : e.search with
    | ok found =>
        cases found with
        | some u =>
            have h := bindAndStart_proj song (proxyUrl u) e (playSyncPart song q i st)
            simp only [playSyncPart] at h ⊢
            exact ⟨h.1, h.2.1, h.2.2.1⟩
        | none => exact ⟨rfl, rfl, rfl⟩
    | err => exact ⟨rfl, rfl, rfl⟩
  · simp only [hf, if_false, Bool.false_eq_true]
    have h := bindAndStart_proj song (song.preview_url.getD "") e (playSyncPart song q i st)
    simp only [playSyncPart] at h ⊢
    exact ⟨h.1, h.2.1, h.2.2.1⟩

/-! ### Timer-invariant machinery -/

lemma timerInv_of_eq (st st' : PState) (ht : st'.timers = st.timers)
    (hi : st'.intervalRef = st.intervalRef) (h : TimerInv st) : TimerInv st' := by
  unfold TimerInv at h ⊢
  rw [ht, hi]
  exact h

lemma clearIntervalRef_timers (st : PState) (h : TimerInv st) :
    (clearIntervalRef st).timers = [] := by
  unfold TimerInv at h
  unfold clearIntervalRef
  cases hIt : st.intervalRef with
  | none =>
      rcases h with h | ⟨i, hi, _⟩
      · exact h
      · rw [hIt] at hi; cases hi
  | some i =>
      rcases h with h | ⟨j, hj, hT⟩
      · simp [h]
      · rw [hIt] at hj
        cases hj
        simp [hT]

lemma timerInv_installInterval (st : PState) (h : st.timers = []) :
    TimerInv (installInterval st) ∧ (installInterval st).timers.length ≤ 1 := by
  unfold TimerInv installInterval
  simp [h]

lemma timerInv_restartInterval (st : PState) (h : TimerInv st) :
    TimerInv (restartInterval st) := by
  unfold restartInterval
  exact (timerInv_installInterval _ (clearIntervalRef_timers st h)).1

lemma timerInv_length (st : PState) (h : TimerInv st) : st.timers.length ≤ 1 := by
  unfold TimerInv at h
  rcases h with h | ⟨i, _, hT⟩
  · simp [h]
  · simp [hT]

lemma timerInv_startPlaying (song : Song) (e : Env) (st : PState) (h : TimerInv st) :
    TimerInv (startPlaying song e st) := by
  unfold startPlaying
  apply timerInv_restartInterval
  exact timerInv_of_eq st _ rfl rfl h

lemma timerInv_bindAndStart (song : Song) (url : String) (e : Env) (st : PState)
    (h : TimerInv st) : TimerInv (bindAndStart song url e st).st := by
  unfold bindAndStart
  cases hL : e.loadOk with
  | false => simpa using timerInv_of_eq st _ rfl rfl h
  | true =>
      cases hP : e.playOk with
      | true =>
          simp only [if_true]
          exact timerInv_startPlaying song e _ (timerInv_of_eq st _ rfl rfl h)
      | false =>
          cases hR : e.retryOk with
          | true =>
              simp only [if_true, Bool.false_eq_true, if_false]
              exact timerInv_startPlaying song e _ (timerInv_of_eq st _ rfl rfl h)
          | false =>
              simpa using timerInv_of_eq st _ rfl rfl h

lemma timerInv_playSong (so : Option Song) (q : List Song) (i : Nat) (e : Env)
    (st : PState) (h : TimerInv st) : TimerInv (playSong so q i e st).st := by
  cases so with
  | none => exact h
  | some song =>
      unfold playSong playSearchContinuation
      have h1 : TimerInv (playSyncPart song q i st) := by
        unfold playSyncPart
        exact timerInv_of_eq st _ rfl rfl h
      by_cases hf : jsFalsy song.preview_url
      · simp only [hf, if_true]
        cases hs : e.search with
        | ok found =>
            cases found with
            | some u => exact timerInv_bindAndStart song (proxyUrl u) e _ h1
            | none => exact timerInv_of_eq _ _ rfl rfl h1
        | err => exact timerInv_of_eq _ _ rfl rfl h1
      · simp only [hf, if_false, Bool.false_eq_true]
        exact timerInv_bindAndStart song (song.preview_url.getD "") e _ h1

lemma timerInv_playNext (e : Env) (st : PState) (h : TimerInv st) :
    TimerInv (playNext e st).st := by
  unfold playNext
  by_cases h0 : st.queue.length = 0
  · simpa [h0] using h
  · simp only [h0, if_false]
    cases hget : st.queue[nextIndexOf e st]? with
    | some s => exact timerInv_playSong (some s) st.queue (nextIndexOf e st) e st h
    | none => exact h

lemma timerInv_playPrevious (e : Env) (st : PState) (h : TimerInv st) :
    TimerInv (playPrevious e st).st := by
  unfold playPrevious
  by_cases h0 : st.queue.length = 0
  · simpa [h0] using h
  · simp only [h0, if_false]
    cases hget : st.queue[prevIndexOf e st]? with
    | some s => exact timerInv_playSong (some s) st.queue (prevIndexOf e st) e st h
    | none => exact h

lemma pauseSong_timers (st : PState) (h : TimerInv st) : (pauseSong st).timers = [] := by
  unfold pauseSong
  exact clearIntervalRef_timers _ (timerInv_of_eq st _ rfl rfl h)

lemma timerInv_pauseSong (st : PState) (h : TimerInv st) : TimerInv (pauseSong st) := by
  unfold TimerInv
  exact Or.inl (pauseSong_timers st h)

lemma timerInv_resumeSong (e : Env) (st : PState) (h : TimerInv st) :
    TimerInv (resumeSong e st) := by
  unfold resumeSong
  cases hc : st.currentSong with
  | none => exact h
  | some s =>
      cases ha : st.audioSrc with
      | none => exact timerInv_restartInterval _ (timerInv_of_eq st _ rfl rfl h)
      | some u =>
          cases hr : e.resumeOk with
          | true =>
              simp only [if_true]
              exact timerInv_restartInterval _ (timerInv_of_eq st _ rfl rfl h)
          | false =>
              simp only [Bool.false_eq_true, if_false]
              exact timerInv_restartInterval _ (timerInv_of_eq st _ rfl rfl h)

/-! ### Index-invariant machinery -/

lemma indexInv_of_eq (st st' : PState) (hc : st'.currentSong = st.currentSong)
    (hq : st'.queue = st.queue) (hi : st'.currentIndex = st.currentIndex)
    (h : indexInv st) : indexInv st' := by
  unfold indexInv at h ⊢
  rw [hc, hq, hi]
  exact h

lemma indexInv_playSong (song : Song) (q : List Song) (i : Nat) (e : Env) (st : PState)
    (hp : i < (if q.length > 0 then q else [song]).length) :
    indexInv (playSong (some song) q i e st).st := by
  have hf := playSong_fields song q i e st
  unfold indexInv
  intro _
  rw [hf.2.1, hf.2.2]
  exact hp

lemma indexInv_playNext (e : Env) (st : PState) (h : indexInv st) :
    indexInv (playNext e st).st := by
  unfold playNext
  by_cases h0 : st.queue.length = 0
  · simpa [h0] using h
  · simp only [h0, if_false]
    cases hget : st.queue[nextIndexOf e st]? with
    | none => exact h
    | some s =>
        rcases List.getElem?_eq_some.mp hget with ⟨hlt, _⟩
        apply indexInv_playSong
        rw [if_pos (by omega)]
        exact hlt

lemma indexInv_playPrevious (e : Env) (st : PState) (h : indexInv st) :
    indexInv (playPrevious e st).st := by
  unfold playPrevious
  by_cases h0 : st.queue.length = 0
  · simpa [h0] using h
  · simp only [h0, if_false]
    cases hget : st.queue[prevIndexOf e st]? with
    | none => exact h
    | some s =>
        rcases List.getElem?_eq_some.mp hget with ⟨hlt, _⟩
        apply indexInv_playSong
        rw [if_pos (by omega)]
        exact hlt

lemma indexInv_addToQueue (songs : List Song) (st : PState) (h : indexInv st) :
    indexInv (addToQueue songs st) := by
  unfold indexInv at h ⊢
  unfold addToQueue
  intro hs
  have h2 := h hs
  show st.currentIndex < (st.queue ++ songs).length
  rw [List.length_append]
  omega

lemma indexInv_pauseSong (st : PState) (h : indexInv st) : indexInv (pauseSong st) := by
  unfold pauseSong
  apply indexInv_of_eq st _ _ _ _ h <;> simp

lemma indexInv_resumeSong (e : Env) (st : PState) (h : indexInv st) :
    indexInv (resumeSong e st) := by
  unfold resumeSong
  cases hc : st.currentSong with
  | none => exact h
  | some s =>
      cases ha : st.audioSrc with
      | none => apply indexInv_of_eq st _ _ _ _ h <;> simp [hc]
      | some u =>
          cases hr : e.resumeOk with
          | true =>
              simp only [if_true]
              apply indexInv_of_eq st _ _ _ _ h <;> simp [hc]
          | false =>
              simp only [Bool.false_eq_true, if_false]
              apply indexInv_of_eq st _ _ _ _ h <;> simp [hc]

/-! ### Concrete fixtures used by counterexamples and witnesses -/

/-- A track with no Spotify preview (resolution must go through search). -/
def songA : Song := ⟨1, "Alpha", "Art A", 200000, none⟩

/-- A track with a direct preview URL. -/
def songB : Song := ⟨2, "Beta", "Art B", 100000, some "https://b.example/preview.mp3"⟩

/-- Third track, used for the three-track round-robin witness. -/
def songC : Song := ⟨3, "Gamma", "Art C", 150000, some "https://c.example/preview.mp3"⟩

/-- Environment for a fully successful run whose search finds a URL. -/
def envA : Env := ⟨.ok (some "https://itunes.example/a.m4a"), true, true, true, true, 200, "Unknown error", 0⟩

/-- Environment for a fully successful run whose search finds nothing. -/
def envB : Env := ⟨.ok none, true, true, true, true, 100, "Unknown error", 0⟩

/-- Environment where the bound source never becomes playable (the load
wait rejects). -/
def envLoadFail : Env := ⟨.ok none, false, true, true, true, 100, "Unknown error", 0⟩

/-- Environment where the load succeeds but both play attempts reject. -/
def envPlayFail : Env := ⟨.ok none, true, false, false, true, 100, "Unknown error", 0⟩

/-- Environment where the load succeeds, the first play rejects and the
relaxed-crossOrigin retry succeeds. -/
def envRetryOkEnv : Env := ⟨.ok none, true, false, true, true, 100, "Unknown error", 0⟩

/-- For a song with a falsy preview URL, a sequential playSong run is
exactly its synchronous head followed by the post-search continuation —
this ties the interleaved executions used below to the main definition. -/
lemma playSong_search_decomp (song : Song) (q : List Song) (i : Nat) (e : Env)
    (st : PState) (hf : jsFalsy song.preview_url = true) :
    playSong (some song) q i e st
      = playSearchContinuation song e (playSyncPart song q i st) := by
  unfold playSong
  simp [hf]

/-- C8: for every time value t, seekTo publishes elapsed time t immediately
(and sets the transport position), for every state — bound or unbound
transport alike — and without touching the polling timer. -/
theorem claim_C8_seek_immediate (t : ℚ) (st : PState) :
    (seekTo t st).currentTime = t ∧
    (seekTo t st).audioPos = t ∧
    (seekTo t st).timers = st.timers ∧
    (seekTo t st).intervalRef = st.intervalRef :=
  ⟨rfl, rfl, rfl, rfl⟩

/-- C10: playSong with a null track returns immediately: the state is
untouched, no resolver search is issued, no toast fires, and the transport
is not bound. -/
theorem claim_C10_null_play (q : List Song) (i : Nat) (e : Env) (st : PState) :
    playSong none q i e st = noEffect st ∧
    (playSong none q i e st).st = st ∧
    (playSong none q i e st).errToasts = [] ∧
    (playSong none q i e st).searched = false ∧
    (playSong none q i e st).bound = false ∧
    (playSong none q i e st).playAttempts = 0 :=
  ⟨rfl, rfl, rfl, rfl, rfl, rfl⟩

/-- C5: for a track with a present, non-empty preview URL, playSong binds
exactly that URL to the transport and issues no external search. -/
theorem claim_C5_direct_resolution (song : Song) (u : String) (q : List Song)
    (i : Nat) (e : Env) (st : PState)
    (hu : song.preview_url = some u) (hne : u ≠ "") :
    (playSong (some song) q i e st).searched = false ∧
    (playSong (some song) q i e st).bound = true ∧
    (playSong (some song) q i e st).st.audioSrc = some u := by
  have hfalsy : jsFalsy song.preview_url = false := by
    rw [hu]; unfold jsFalsy; simp [hne]
  unfold playSong
  simp only [hfalsy, Bool.false_eq_true, if_false]
  rw [hu]
  simp only [Option.getD_some]
  have h := bindAndStart_proj song u e (playSyncPart song q i st)
  exact ⟨h.2.2.2.2.2, h.2.2.2.2.1, h.2.2.2.1⟩

/-- C5 witness at a concrete track and environment. -/
theorem claim_C5_witness :
    (playSong (some songB) [] 0 envB initialState).searched = false ∧
    (playSong (some songB) [] 0 envB initialState).bound = true ∧
    (playSong (some songB) [] 0 envB initialState).st.audioSrc
      = some "https://b.example/preview.mp3" :=
  claim_C5_direct_resolution songB "https://b.example/preview.mp3" [] 0 envB
    initialState rfl (by decide)

/-- C6: for a track with an empty/absent preview URL whose search yields no
candidate or errors, playSong stops (isPlaying = false), never binds a
source, leaves the transport source unchanged, and raises an error toast
containing the track title. -/
theorem claim_C6_unavailable (song : Song) (q : List Song) (i : Nat) (e : Env)
    (st : PState) (hf : jsFalsy song.preview_url = true)
    (hs : e.search = .ok none ∨ e.search = .err) :
    (playSong (some song) q i e st).st.isPlaying = false ∧
    (playSong (some song) q i e st).bound = false ∧
    (playSong (some song) q i e st).playAttempts = 0 ∧
    (playSong (some song) q i e st).st.audioSrc = st.audioSrc ∧
    (playSong (some song) q i e st).st.currentSong = some song ∧
    ∃ m ∈ (playSong (some song) q i e st).errToasts,
      ∃ pre post, m = pre ++ song.name ++ post := by
  unfold playSong playSearchContinuation
  simp only [hf, if_true]
  rcases hs with hs | hs <;> rw [hs]
  · exact ⟨rfl, rfl, rfl, rfl, rfl,
      noPreviewMsg song, by simp,
      "No preview available for \"", "\". Try opening in Spotify to listen.", rfl⟩
  · exact ⟨rfl, rfl, rfl, rfl, rfl,
      searchErrMsg song, by simp,
      "Preview not available for \"", "\".", rfl⟩

/-- C6 witness at a concrete track and environment. -/
theorem claim_C6_witness :
    (playSong (some songA) [] 0 envB initialState).st.isPlaying = false ∧
    (playSong (some songA) [] 0 envB initialState).bound = false ∧
    (playSong (some songA) [] 0 envB initialState).playAttempts = 0 ∧
    (playSong (some songA) [] 0 envB initialState).st.audioSrc = initialState.audioSrc ∧
    (playSong (some songA) [] 0 envB initialState).st.currentSong = some songA ∧
    ∃ m ∈ (playSong (some songA) [] 0 envB initialState).errToasts,
      ∃ pre post, m = pre ++ songA.name ++ post :=
  claim_C6_unavailable songA [] 0 envB initialState rfl (Or.inl rfl)

/-- C1: from any state satisfying the single-timer invariant, every
operation that installs or cancels a progress timer (playSong in every
environment, pauseSong, resumeSong in the real and simulated paths,
playNext, playPrevious) preserves it, pauseSong leaves no timer live, and
the invariant bounds the number of live timers by one. -/
theorem claim_C1_single_timer (so : Option Song) (q : List Song) (i : Nat)
    (e : Env) (st : PState) (h : TimerInv st) :
    TimerInv (playSong so q i e st).st ∧
    (playSong so q i e st).st.timers.length ≤ 1 ∧
    TimerInv (pauseSong st) ∧ (pauseSong st).timers = [] ∧
    TimerInv (resumeSong e st) ∧ (resumeSong e st).timers.length ≤ 1 ∧
    TimerInv (playNext e st).st ∧ TimerInv (playPrevious e st).st ∧
    st.timers.length ≤ 1 :=
  ⟨timerInv_playSong so q i e st h,
   timerInv_length _ (timerInv_playSong so q i e st h),
   timerInv_pauseSong st h, pauseSong_timers st h,
   timerInv_resumeSong e st h,
   timerInv_length _ (timerInv_resumeSong e st h),
   timerInv_playNext e st h, timerInv_playPrevious e st h,
   timerInv_length st h⟩

/-- A state with one live timer, as after a successful play. -/
def stTimer : PState :=
  { initialState with currentSong := some songB, isPlaying := true,
                      audioSrc := some "https://b.example/preview.mp3",
                      timers := [0], intervalRef := some 0, nextTimerId := 1 }

/-- C1 witness at a concrete state holding a live timer. -/
theorem claim_C1_witness :
    TimerInv (playSong (some songA) [] 0 envA stTimer).st ∧
    (playSong (some songA) [] 0 envA stTimer).st.timers.length ≤ 1 ∧
    TimerInv (pauseSong stTimer) ∧ (pauseSong stTimer).timers = [] ∧
    TimerInv (resumeSong envA stTimer) ∧
    (resumeSong envA stTimer).timers.length ≤ 1 ∧
    TimerInv (playNext envA stTimer).st ∧ TimerInv (playPrevious envA stTimer).st ∧
    stTimer.timers.length ≤ 1 :=
  claim_C1_single_timer (some songA) [] 0 envA stTimer (Or.inr ⟨0, rfl, rfl⟩)

/-- C7 as stated is violated by clearQueue: it empties the Queue and resets
the index while leaving the current track set.  Amended: every other listed
operation preserves the index invariant; playSong preserves it whenever the
supplied index is valid for the effective queue (its documented calling
contract, satisfied by the default arguments and by next/previous). -/
theorem claim_C7_preservation (song : Song) (q songs : List Song) (i : Nat)
    (t : ℚ) (e : Env) (st : PState) (h : indexInv st)
    (hp : i < (if q.length > 0 then q else [song]).length) :
    indexInv (playSong (some song) q i e st).st ∧
    indexInv (playNext e st).st ∧
    indexInv (playPrevious e st).st ∧
    indexInv (addToQueue songs st) ∧
    indexInv (pauseSong st) ∧
    indexInv (resumeSong e st) ∧
    indexInv (seekTo t st) ∧
    indexInv (toggleMute st) ∧
    indexInv (toggleShuffle st) ∧
    indexInv (toggleRepeat st) :=
  ⟨indexInv_playSong song q i e st hp, indexInv_playNext e st h,
   indexInv_playPrevious e st h, indexInv_addToQueue songs st h,
   indexInv_pauseSong st h, indexInv_resumeSong e st h, h, h, h, h⟩

/-- A legitimate state: the current track is the single queue entry at
index 0 (what play with default arguments establishes). -/
def exQueue : PState :=
  { initialState with currentSong := some songB, queue := [songB], currentIndex := 0 }

/-- C7 counterexample: from a state satisfying the index invariant,
clearQueue produces a state violating it (current track set, empty Queue,
index 0 not a valid index). -/
theorem claim_C7_counterexample :
    indexInv exQueue ∧ ¬ indexInv (clearQueue exQueue) := by decide

/-- C7 witness for the amended preservation theorem, at concrete inputs. -/
theorem claim_C7_witness :
    indexInv (playSong (some songC) [songB, songC] 1 envB exQueue).st ∧
    indexInv (playNext envB exQueue).st ∧
    indexInv (playPrevious envB exQueue).st ∧
    indexInv (addToQueue [songA] exQueue) ∧
    indexInv (pauseSong exQueue) ∧
    indexInv (resumeSong envB exQueue) ∧
    indexInv (seekTo 5 exQueue) ∧
    indexInv (toggleMute exQueue) ∧
    indexInv (toggleShuffle exQueue) ∧
    indexInv (toggleRepeat exQueue) :=
  claim_C7_preservation songC [songB, songC] [songA] 1 5 envB exQueue
    (by decide) (by decide)

/-- A playing state whose single-entry queue does not even contain the
current track (reachable via clearQueue + addToQueue). -/
def exSingle : PState :=
  { initialState with currentSong := some songA, queue := [songB],
                      currentIndex := 0, isPlaying := true }

/-- C3 counterexample: on a Queue of length one, playNext and playPrevious
are not no-ops — they re-invoke play on the sole entry, here visibly
replacing the current track. -/
theorem claim_C3_counterexample :
    exSingle.queue.length = 1 ∧
    exSingle.currentSong = some songA ∧
    (playNext envB exSingle).st.currentSong = some songB ∧
    (playPrevious envB exSingle).st.currentSong = some songB ∧
    songA ≠ songB := by decide

/-- C3 amended: next/previous are no-ops exactly on the empty Queue; on a
singleton Queue, playNext (and, from the index-0 state play itself
establishes, playPrevious) re-invokes play on the single entry at
index 0, restarting it. -/
theorem claim_C3_small_queue (e : Env) (st : PState) :
    (st.queue = [] → playNext e st = noEffect st ∧ playPrevious e st = noEffect st) ∧
    (∀ s, st.queue = [s] → playNext e st = playSong (some s) [s] 0 e st) ∧
    (∀ s, st.queue = [s] → st.currentIndex = 0 →
       playPrevious e st = playSong (some s) [s] 0 e st) := by
  refine ⟨?_, ?_, ?_⟩
  · intro h0
    constructor <;> simp [playNext, playPrevious, h0]
  · intro s h1
    have hlen : st.queue.length = 1 := by rw [h1]; rfl
    have hnext : nextIndexOf e st = 0 := by
      unfold nextIndexOf
      rw [hlen]
      cases st.isShuffled <;> simp [Nat.mod_one]
    unfold playNext
    rw [if_neg (by omega), hnext, h1]
    rfl
  · intro s h1 hz
    have hlen : st.queue.length = 1 := by rw [h1]; rfl
    have hprev : prevIndexOf e st = 0 := by
      unfold prevIndexOf
      rw [hlen, hz]
      cases st.isShuffled <;> simp [Nat.mod_one]
    unfold playPrevious
    rw [if_neg (by omega), hprev, h1]
    rfl

/-- C3 witness: the amended behaviour at a concrete singleton-queue state. -/
theorem claim_C3_witness :
    playNext envB exSingle = playSong (some songB) [songB] 0 envB exSingle :=
  (claim_C3_small_queue envB exSingle).2.1 songB rfl

/-- Rewriting playNext once the target index is in range. -/
lemma playNext_eq (e : Env) (st : PState) (hn0 : ¬ st.queue.length = 0)
    (hlt : nextIndexOf e st < st.queue.length) :
    playNext e st
      = playSong st.queue[nextIndexOf e st]? st.queue (nextIndexOf e st) e st := by
  unfold playNext
  rw [if_neg hn0, List.getElem?_eq_getElem hlt]

/-- Rewriting playPrevious once the target index is in range. -/
lemma playPrevious_eq (e : Env) (st : PState) (hn0 : ¬ st.queue.length = 0)
    (hlt : prevIndexOf e st < st.queue.length) :
    playPrevious e st
      = playSong st.queue[prevIndexOf e st]? st.queue (prevIndexOf e st) e st := by
  unfold playPrevious
  rw [if_neg hn0, List.getElem?_eq_getElem hlt]

/-- Under sequential mode the computed next index is (i + 1) mod n. -/
lemma nextIndexOf_seq (e : Env) (st : PState) (hs : st.isShuffled = false) :
    nextIndexOf e st = (st.currentIndex + 1) % st.queue.length := by
  unfold nextIndexOf
  rw [hs]
  simp

/-- Under sequential mode, for an in-range index, the computed previous
index is (i - 1 + n) mod n. -/
lemma prevIndexOf_seq (e : Env) (st : PState) (hs : st.isShuffled = false)
    (hi : st.currentIndex < st.queue.length) :
    prevIndexOf e st = (st.currentIndex + st.queue.length - 1) % st.queue.length := by
  unfold prevIndexOf
  rw [hs]
  simp only [Bool.false_eq_true, if_false]
  by_cases h0 : st.currentIndex = 0
  · rw [if_pos h0, h0]
    have h1 : 0 + st.queue.length - 1 = st.queue.length - 1 := by omega
    rw [h1, Nat.mod_eq_of_lt (by omega)]
  · rw [if_neg h0]
    have h1 : st.currentIndex + st.queue.length - 1
        = (st.currentIndex - 1) + st.queue.length := by omega
    rw [h1, Nat.add_mod_right, Nat.mod_eq_of_lt (by omega)]

/-- C4: on a Queue of length at least 2 with shuffle disabled and an
in-range current index, playNext invokes play on the Queue entry at
(i + 1) mod n with the same Queue and that index, and playPrevious does
the same at (i - 1 + n) mod n; the resulting state carries the new index,
the unchanged Queue, and the targeted entry as current track. -/
theorem claim_C4_round_robin (e : Env) (st : PState)
    (h2 : 2 ≤ st.queue.length) (hs : st.isShuffled = false)
    (hi : st.currentIndex < st.queue.length) :
    playNext e st
      = playSong st.queue[(st.currentIndex + 1) % st.queue.length]? st.queue
          ((st.currentIndex + 1) % st.queue.length) e st ∧
    (playNext e st).st.currentIndex = (st.currentIndex + 1) % st.queue.length ∧
    (playNext e st).st.queue = st.queue ∧
    (playNext e st).st.currentSong
      = st.queue[(st.currentIndex + 1) % st.queue.length]? ∧
    playPrevious e st
      = playSong st.queue[(st.currentIndex + st.queue.length - 1) % st.queue.length]?
          st.queue ((st.currentIndex + st.queue.length - 1) % st.queue.length) e st ∧
    (playPrevious e st).st.currentIndex
      = (st.currentIndex + st.queue.length - 1) % st.queue.length ∧
    (playPrevious e st).st.queue = st.queue ∧
    (playPrevious e st).st.currentSong
      = st.queue[(st.currentIndex + st.queue.length - 1) % st.queue.length]? := by
  have hn0 : ¬ st.queue.length = 0 := by omega
  have hne := nextIndexOf_seq e st hs
  have hpe := prevIndexOf_seq e st hs hi
  have hlt1 : nextIndexOf e st < st.queue.length := by
    rw [hne]; exact Nat.mod_lt _ (by omega)
  have hlt2 : prevIndexOf e st < st.queue.length := by
    rw [hpe]; exact Nat.mod_lt _ (by omega)
  have hA : playNext e st
      = playSong st.queue[(st.currentIndex + 1) % st.queue.length]? st.queue
          ((st.currentIndex + 1) % st.queue.length) e st := by
    rw [playNext_eq e st hn0 hlt1, hne]
  have hB : playPrevious e st
      = playSong st.queue[(st.currentIndex + st.queue.length - 1) % st.queue.length]?
          st.queue ((st.currentIndex + st.queue.length - 1) % st.queue.length) e st := by
    rw [playPrevious_eq e st hn0 hlt2, hpe]
  have hlt1m : (st.currentIndex + 1) % st.queue.length < st.queue.length :=
    Nat.mod_lt _ (by omega)
  have hlt2m : (st.currentIndex + st.queue.length - 1) % st.queue.length
      < st.queue.length := Nat.mod_lt _ (by omega)
  have hg1 := List.getElem?_eq_getElem hlt1m
  have hg2 := List.getElem?_eq_getElem hlt2m
  obtain ⟨hc1, hq1, hi1⟩ := playSong_fields
    (st.queue[(st.currentIndex + 1) % st.queue.length]) st.queue
    ((st.currentIndex + 1) % st.queue.length) e st
  obtain ⟨hc2, hq2, hi2⟩ := playSong_fields
    (st.queue[(st.currentIndex + st.queue.length - 1) % st.queue.length])
    st.queue ((st.currentIndex + st.queue.length - 1) % st.queue.length) e st
  refine ⟨hA, ?_, ?_, ?_, hB, ?_, ?_, ?_⟩
  · rw [hA, hg1, hi1]
  · rw [hA, hg1, hq1, if_pos (by omega)]
  · rw [hA, hg1, hc1]
  · rw [hB, hg2, hi2]
  · rw [hB, hg2, hq2, if_pos (by omega)]
  · rw [hB, hg2, hc2]

/-- Queue of three tracks at index 2, shuffle off (the example from the
spec: next wraps to index 0). -/
def stThree : PState :=
  { initialState with currentSong := some songC,
                      queue := [songA, songB, songC], currentIndex := 2 }

/-- C4 witness: the round-robin theorem applied at the concrete
three-track queue; next from index 2 targets index (2 + 1) mod 3 = 0. -/
theorem claim_C4_witness :
    (playNext envB stThree).st.currentIndex
      = (stThree.currentIndex + 1) % stThree.queue.length :=
  (claim_C4_round_robin envB stThree (by decide) (by decide) (by decide)).2.1

/-- Run in which the bound source never becomes playable: the load wait
rejects into the outer catch. -/
def rLoadFail : PResult := playSong (some songB) [] 0 envLoadFail initialState

/-- C9 counterexample: a play attempt whose bound media resource fails to
become playable (the load wait errors) performs no relaxed-crossOrigin
retry and no play call at all — it aborts straight to stopped, so the
claimed retry-once behaviour does not hold for load failures. -/
theorem claim_C9_counterexample :
    rLoadFail.bound = true ∧
    rLoadFail.st.isPlaying = false ∧
    rLoadFail.relaxedRetry = false ∧
    rLoadFail.playAttempts = 0 ∧
    rLoadFail.errToasts = [loadErrorMsg, failedToPlayMsg songB envLoadFail] := by
  decide

/-- C9 amended: a load failure aborts to stopped with no retry; when the
load succeeds and the start call rejects, the controller retries exactly
once with crossOrigin relaxed to null, succeeding (playing) when the retry
resolves and returning to stopped when it also rejects. -/
theorem claim_C9_retry (song : Song) (url : String) (e : Env) (st : PState) :
    (e.loadOk = false →
       (bindAndStart song url e st).relaxedRetry = false ∧
       (bindAndStart song url e st).playAttempts = 0 ∧
       (bindAndStart song url e st).st.isPlaying = false) ∧
    (e.loadOk = true → e.playOk = false →
       (bindAndStart song url e st).relaxedRetry = true ∧
       (bindAndStart song url e st).playAttempts = 2 ∧
       (bindAndStart song url e st).st.crossOrigin = none ∧
       (e.retryOk = true → (bindAndStart song url e st).st.isPlaying = true) ∧
       (e.retryOk = false → (bindAndStart song url e st).st.isPlaying = false)) := by
  constructor
  · intro hL
    unfold bindAndStart
    rw [hL]
    simp
  · intro hL hP
    unfold bindAndStart
    rw [hL, hP]
    simp only [if_true, Bool.false_eq_true, if_false]
    cases hR : e.retryOk <;> simp

/-- C9 witness: the amended retry behaviour at a concrete failing run. -/
theorem claim_C9_witness :
    (bindAndStart songB "https://b.example/preview.mp3" envPlayFail initialState).relaxedRetry = true ∧
    (bindAndStart songB "https://b.example/preview.mp3" envPlayFail initialState).playAttempts = 2 ∧
    (bindAndStart songB "https://b.example/preview.mp3" envPlayFail initialState).st.crossOrigin = none ∧
    (envPlayFail.retryOk = true →
      (bindAndStart songB "https://b.example/preview.mp3" envPlayFail initialState).st.isPlaying = true) ∧
    (envPlayFail.retryOk = false →
      (bindAndStart songB "https://b.example/preview.mp3" envPlayFail initialState).st.isPlaying = false) :=
  (claim_C9_retry songB "https://b.example/preview.mp3" envPlayFail initialState).2 rfl rfl

/-- The state after the synchronous head of play(A): A is published as
current, its resolution (the iTunes search) is in flight. -/
def stAInFlight : PState := playSyncPart songA [] 0 initialState

/-- play(B) runs to completion while A's search is still pending. -/
def rOverB : PResult := playSong (some songB) [] 0 envB stAInFlight

/-- A's search then resolves and its continuation runs against the state B
left behind (the interleaving the claim is about; `playSong_search_decomp`
shows this continuation is exactly the rest of A's sequential run). -/
def rLateA : PResult := playSearchContinuation songA envA rOverB.st

/-- C2 evaluated on the overlapping scenario play(A); play(B); A resolves:
B is the published current track after B's run, and A's late-arriving
resolution is NOT discarded — there is no token mechanism in the code, so
A's continuation re-binds the transport to A's proxied source and
overwrites the published duration with A's, changing the state B
established. -/
theorem claim_C2_no_token :
    rOverB.st.currentSong = some songB ∧
    rOverB.st.audioSrc = some "https://b.example/preview.mp3" ∧
    rOverB.st.duration = 100 ∧
    rOverB.st.isPlaying = true ∧
    rLateA.st.currentSong = some songB ∧
    rLateA.bound = true ∧
    rLateA.st.audioSrc = some (proxyUrl "https://itunes.example/a.m4a") ∧
    rLateA.st.duration = 200 ∧
    rLateA.st ≠ rOverB.st := by
  decide
